import Mathlib

/-!
Verification development for the prompt2slides repository.

The repository exposes PowerPoint-authoring operations (src/apis.py, built on
python-pptx) behind an MCP tool server (src/mcp_server.py).  The tool server
dispatches through a module `pptx_services` (the session registry / handle
resolution layer) whose source is not part of the repository snapshot; that
layer is modelled from the specification and each such definition is marked
`Modelled from the spec:` in its doc comment.  Everything else is translated
from src/apis.py, with python-pptx modelled at the interface apis.py uses.

Conventions:
* positions and sizes are exact rationals (Python floats idealised; no claim
  depends on numeric rounding), `Inches x` and `Pt x` are the identity;
* Python exceptions become an explicit error type; a function that mutates its
  argument before raising returns the mutated value together with the error;
* the filesystem is a read-only list of existing paths, and saving records the
  written path instead of performing I/O.
-/

namespace Pptx

/-! ## Basic value types -/

/-- RGB colour triple, as the `(r, g, b)` tuples used throughout apis.py. -/
abbrev RGB := Nat × Nat × Nat

/-- PP_ALIGN values used by apis.py. -/
inductive Align where
  | left
  | center
  | right
deriving DecidableEq, Repr

/-- XL_CHART_TYPE members named in the tool documentation (src/mcp_server.py
`add_chart` docstring): the fixed enumeration of supported chart type names. -/
inductive ChartType where
  | barClustered
  | barStacked
  | columnClustered
  | line
  | pie
  | scatter
  | area
  | radar
deriving DecidableEq, Repr

/-- MSO_SHAPE members named in the tool documentation (src/mcp_server.py
`add_shape` docstring): the fixed enumeration of supported shape type names. -/
inductive ShapeType where
  | rectangle
  | oval
  | triangle
  | arrow
deriving DecidableEq, Repr

/-- Python exceptions raised by the backend paths apis.py can hit. -/
inductive PyErr where
  | indexError
  | attributeError
  | fileNotFoundError
deriving DecidableEq, Repr

/-- Python truthiness of an optional string argument (`if title:` in apis.py):
None and the empty string are falsy. -/
def pyTruthy : Option String → Bool
  | none => false
  | some s => s ≠ ""

/-- Python truthiness of an optional number (`if img_height:` in apis.py):
None and 0 are falsy. -/
def pyTruthyQ : Option ℚ → Bool
  | none => false
  | some q => q ≠ 0

/-- Python `s.endswith(suffix)` (str.endswith with a plain suffix). -/
def pyEndsWith (s suffix : String) : Bool :=
  suffix.data.isSuffixOf s.data

/-! ## Text model (python-pptx text frames as used by apis.py)

Assigning a string to `TextFrame.text` splits it at line-feed characters into
paragraphs; within one paragraph (`_Paragraph.text` assignment, or one line of
a text-frame assignment) the characters are fed through python-pptx's
paragraph-text appender, which flushes each maximal buffer of non-break
characters as one `a:r` run and turns each break character into an `a:br`
element.  An empty buffer is not flushed, so an empty line yields a paragraph
with no runs. -/

/-- Break characters translated to `a:br` by the paragraph-text appender. -/
def isBreakChar (c : Char) : Bool :=
  c = '\n' ∨ c = Char.ofNat 11

/-- Split a character list at line feeds, keeping empty pieces
(Python `text.split('\n')`). -/
def splitLines : List Char → List (List Char)
  | [] => [[]]
  | c :: rest =>
    if c = '\n' then [] :: splitLines rest
    else
      match splitLines rest with
      | [] => [[c]]
      | l :: ls => (c :: l) :: ls

/-- Split a character list at break characters, keeping empty pieces. -/
def splitBreaks : List Char → List (List Char)
  | [] => [[]]
  | c :: rest =>
    if isBreakChar c then [] :: splitBreaks rest
    else
      match splitBreaks rest with
      | [] => [[c]]
      | l :: ls => (c :: l) :: ls

/-- Font settings of a run or paragraph; `none` leaves the backend default. -/
structure Font where
  size : Option ℚ := none
  name : Option String := none
  color : Option RGB := none
  bold : Option Bool := none
  italic : Option Bool := none
  underline : Option Bool := none
deriving DecidableEq, Repr

/-- One text run (`a:r`). -/
structure TextRun where
  text : String
  font : Font := {}
deriving DecidableEq, Repr

/-- One paragraph (`a:p`). -/
structure Paragraph where
  runs : List TextRun := []
  alignment : Option Align := none
  level : Nat := 0
  lineSpacing : Option ℚ := none
  font : Font := {}
deriving DecidableEq, Repr

/-- A text frame; a fresh one holds a single empty paragraph. -/
structure TextFrame where
  paragraphs : List Paragraph := [{}]
  wordWrap : Bool := false
deriving DecidableEq, Repr

/-- The runs produced by appending the characters `cs` to a paragraph: each
maximal non-empty fragment between break characters becomes one run. -/
def runsFromChars (cs : List Char) : List TextRun :=
  ((splitBreaks cs).filter (fun f => f ≠ [])).map fun f => { text := String.mk f }

/-- Runs produced by `_Paragraph.text = s`. -/
def runsOfText (s : String) : List TextRun :=
  runsFromChars s.data

/-- Paragraphs produced by `TextFrame.text = s`: split at line feeds, one
paragraph per line. -/
def textToParagraphs (s : String) : List Paragraph :=
  (splitLines s.data).map fun line => { runs := runsFromChars line }

/-! ## Shapes, slides, presentations -/

/-- Position/size rectangle, in inches. -/
structure Rect where
  left : ℚ
  top : ℚ
  width : ℚ
  height : ℚ
deriving DecidableEq, Repr

/-- Table cell grid: rows of cell text frames. -/
abbrev TableCells := List (List TextFrame)

/-- A shape on a slide, as created by the apis.py operations. -/
inductive Shape where
  | textbox (rect : Rect) (tf : TextFrame)
  | picture (left top : ℚ) (width height : Option ℚ) (path : String)
  | chartShape (rect : Rect) (ty : ChartType) (categories : List String)
      (series : List (String × List ℚ)) (title : Option String)
  | tableShape (left top : ℚ) (width height : ℚ)
      (columnWidths : Option (List ℚ)) (cells : TableCells)
  | autoShape (rect : Rect) (ty : ShapeType) (fill : Option RGB)
      (line : Option (RGB × ℚ))
deriving DecidableEq, Repr

/-- A slide: layout it was created from, optional title-placeholder text,
optional background fill, and the shapes added to it. -/
structure Slide where
  layoutIndex : Nat := 1
  titleText : Option String := none
  background : Option RGB := none
  shapes : List Shape := []
deriving DecidableEq, Repr

/-- A presentation object (python-pptx `Presentation`). -/
structure Pres where
  slides : List Slide := []
deriving DecidableEq, Repr

/-- The default python-pptx template ships 11 slide layouts (indices 0-10). -/
def numLayouts : Nat := 11

/-- Whether the layout has a title placeholder (`slide.shapes.title` is not
None): in the default template every layout except 6 (Blank) has one. -/
def layoutHasTitle (i : Nat) : Bool :=
  i ≠ 6

/-! ## apis.py operations

Each function is translated from the correspondingly named function of
src/apis.py.  A function returns the (possibly mutated) object it operated on
together with either the value the Python function returns or the exception it
raises; mutations performed before a raise are kept, mirroring in-place
mutation of backend objects. -/

/-- apis.create_presentation: a fresh presentation with no slides. -/
def create_presentation : Pres :=
  {}

/-- apis.add_slide (src/apis.py:28-66).  `prs.slide_layouts[layout_index]`
raises IndexError for an out-of-range index (negative Python indices are not
modelled; the documented layouts are 0-8).  The title is set only when
`title` is truthy and the layout has a title placeholder; the background fill
is set when a colour is given. -/
def add_slide (prs : Pres) (layoutIndex : Nat) (title : Option String)
    (backgroundColor : Option RGB) : Pres × Except PyErr Slide :=
  if layoutIndex < numLayouts then
    let sl0 : Slide := { layoutIndex := layoutIndex }
    let sl1 := if pyTruthy title && layoutHasTitle layoutIndex then
        { sl0 with titleText := title } else sl0
    let sl2 := match backgroundColor with
      | some c => { sl1 with background := some c }
      | none => sl1
    ({ prs with slides := prs.slides ++ [sl2] }, .ok sl2)
  else
    (prs, .error .indexError)

/-- apis.add_text (src/apis.py:69-108).  The textbox is added to the slide,
its text frame is assigned `text`, the first paragraph's alignment is set, and
then `paragraph.runs[0]` is styled — raising IndexError when the first
paragraph has no runs (the textbox stays on the slide). -/
def add_text (sl : Slide) (text : String) (left top width height : ℚ)
    (fontSize : ℚ) (fontName : String) (color : RGB) (bold italic underline : Bool)
    (alignment : Align) : Slide × Except PyErr Shape :=
  let paras := textToParagraphs text
  let p1 : Paragraph := { paras.headD {} with alignment := some alignment }
  match p1.runs with
  | [] =>
    let tf : TextFrame := { paragraphs := p1 :: paras.tail }
    ({ sl with shapes := sl.shapes ++ [.textbox ⟨left, top, width, height⟩ tf] },
      .error .indexError)
  | r0 :: rs =>
    let fnt : Font :=
      { size := some fontSize,
        name := some fontName,
        color := some color,
        bold := some bold,
        italic := some italic,
        underline := some underline }
    let r1 := { r0 with font := fnt }
    let tf : TextFrame := { paragraphs := { p1 with runs := r1 :: rs } :: paras.tail }
    let shp := Shape.textbox ⟨left, top, width, height⟩ tf
    ({ sl with shapes := sl.shapes ++ [shp] }, .ok shp)

/-- apis.add_paragraph (src/apis.py:111-147).  Word wrap is enabled, the
single starting paragraph is assigned `text`, alignment and line spacing, and
then `paragraph.runs[0]` is styled — raising IndexError when the paragraph
has no runs. -/
def add_paragraph (sl : Slide) (text : String) (left top width height : ℚ)
    (fontSize : ℚ) (fontName : String) (color : RGB) (alignment : Align)
    (lineSpacing : ℚ) : Slide × Except PyErr Shape :=
  let p1 : Paragraph :=
    { runs := runsOfText text,
      alignment := some alignment,
      lineSpacing := some lineSpacing }
  match p1.runs with
  | [] =>
    let tf : TextFrame := { paragraphs := [p1], wordWrap := true }
    ({ sl with shapes := sl.shapes ++ [.textbox ⟨left, top, width, height⟩ tf] },
      .error .indexError)
  | r0 :: rs =>
    let fnt : Font :=
      { size := some fontSize,
        name := some fontName,
        color := some color }
    let r1 := { r0 with font := fnt }
    let tf : TextFrame :=
      { paragraphs := [{ p1 with runs := r1 :: rs }],
        wordWrap := true }
    let shp := Shape.textbox ⟨left, top, width, height⟩ tf
    ({ sl with shapes := sl.shapes ++ [shp] }, .ok shp)

/-- apis.add_bullet_list (src/apis.py:150-201).  With an empty item list the
loop body never runs and the textbox (one cleared paragraph) is returned.
With a non-empty list, the first iteration sets the first paragraph's text,
level and font and then accesses `p.bullet` — python-pptx paragraphs expose
no `bullet` attribute, so this raises AttributeError (both the custom-bullet
branch and the default branch access `p.bullet`); the textbox with the
partially formatted first paragraph stays on the slide. -/
def add_bullet_list (sl : Slide) (items : List String) (left top width height : ℚ)
    (fontSize : ℚ) (fontName : String) (color : RGB) (level : Nat)
    (_bulletCharacter : Option String) : Slide × Except PyErr Shape :=
  match items with
  | [] =>
    let tf : TextFrame := { paragraphs := [{}], wordWrap := true }
    let shp := Shape.textbox ⟨left, top, width, height⟩ tf
    ({ sl with shapes := sl.shapes ++ [shp] }, .ok shp)
  | item :: _ =>
    let fnt : Font :=
      { size := some fontSize,
        name := some fontName,
        color := some color }
    let p : Paragraph := { runs := runsOfText item, level := level, font := fnt }
    let tf : TextFrame := { paragraphs := [p], wordWrap := true }
    ({ sl with shapes := sl.shapes ++ [.textbox ⟨left, top, width, height⟩ tf] },
      .error .attributeError)

/-- apis.add_image (src/apis.py:204-224).  When both width and height are
unset a 4 by 3 inch default is used.  `slide.shapes.add_picture` opens the
image file before touching the slide, so a missing path raises
FileNotFoundError with the slide unchanged.  `fs` is the set of existing
files. -/
def add_image (fs : List String) (sl : Slide) (imagePath : String)
    (left top : ℚ) (width height : Option ℚ) : Slide × Except PyErr Shape :=
  let wh : Option ℚ × Option ℚ :=
    match width, height with
    | none, none => (some 4, some 3)
    | w, h => (w, h)
  if imagePath ∈ fs then
    let shp := Shape.picture left top wh.1 wh.2 imagePath
    ({ sl with shapes := sl.shapes ++ [shp] }, .ok shp)
  else
    (sl, .error .fileNotFoundError)

/-- apis.add_chart (src/apis.py:227-258).  Builds category chart data and
adds the chart; a truthy chart title is stored, a falsy one (None or the
empty string) leaves the chart untitled. -/
def add_chart (sl : Slide) (chartType : ChartType) (categories : List String)
    (dataSeries : List (String × List ℚ)) (left top width height : ℚ)
    (chartTitle : Option String) : Slide × Except PyErr Shape :=
  let title := if pyTruthy chartTitle then chartTitle else none
  let shp := Shape.chartShape ⟨left, top, width, height⟩ chartType categories
    dataSeries title
  ({ sl with shapes := sl.shapes ++ [shp] }, .ok shp)

/-- apis.add_shape (src/apis.py:341-372).  Adds an autoshape; fill colour and
line colour/width are applied when given. -/
def add_shape (sl : Slide) (shapeType : ShapeType) (left top width height : ℚ)
    (fillColor lineColor : Option RGB) (lineWidth : ℚ) :
    Slide × Except PyErr Shape :=
  let shp := Shape.autoShape ⟨left, top, width, height⟩ shapeType fillColor
    (lineColor.map fun c => (c, lineWidth))
  ({ sl with shapes := sl.shapes ++ [shp] }, .ok shp)

/-! ### apis.add_table -/

/-- Formatting options of a dict-valued table cell
(`{'text': ..., 'options': {...}}`); a `none` field is an absent key. -/
structure CellFmt where
  bold : Option Bool := none
  italic : Option Bool := none
  fontSize : Option ℚ := none
  color : Option RGB := none
deriving DecidableEq, Repr

/-- Python truthiness of the options dict (`if options:`). -/
def CellFmt.isEmpty (o : CellFmt) : Bool :=
  o.bold.isNone && o.italic.isNone && o.fontSize.isNone && o.color.isNone

/-- One entry of the 2D `data` argument of apis.add_table: either a plain
string or a dict with text and formatting options. -/
inductive CellData where
  | str (s : String)
  | fmt (text : String) (options : CellFmt)
deriving DecidableEq, Repr

/-- Apply one cell's data to the cell's text frame (body of the populate
loop, src/apis.py:304-329).  A dict cell assigns the first paragraph's text
and then, when options are present, styles `p.runs[0]` — IndexError when the
text produced no run (the text assignment is kept).  A plain value is
assigned via `cell.text = str(cell_data)`. -/
def applyCellData (tf : TextFrame) : CellData → TextFrame × Option PyErr
  | .str s => ({ tf with paragraphs := textToParagraphs s }, none)
  | .fmt text opts =>
    let p0 : Paragraph := { tf.paragraphs.headD {} with runs := runsOfText text }
    let tf1 : TextFrame := { tf with paragraphs := p0 :: tf.paragraphs.tail }
    if opts.isEmpty then
      (tf1, none)
    else
      match p0.runs with
      | [] => (tf1, some .indexError)
      | r0 :: rs =>
        let f0 := r0.font
        let f1 : Font :=
          { f0 with
            bold := (opts.bold.orElse fun _ => f0.bold),
            italic := (opts.italic.orElse fun _ => f0.italic),
            size := (opts.fontSize.orElse fun _ => f0.size),
            color := (opts.color.orElse fun _ => f0.color) }
        let p1 := { p0 with runs := { r0 with font := f1 } :: rs }
        ({ tf with paragraphs := p1 :: tf.paragraphs.tail }, none)

/-- Populate the cells of one table row from one data row.  `table.cell`
raises IndexError when the data row is longer than the created column count;
cells already written are kept. -/
def populateRowCells : List TextFrame → List CellData → List TextFrame × Option PyErr
  | cells, [] => (cells, none)
  | [], _ :: _ => ([], some .indexError)
  | tf :: cells, cd :: cds =>
    match applyCellData tf cd with
    | (tf1, some e) => (tf1 :: cells, some e)
    | (tf1, none) =>
      let (cells1, err) := populateRowCells cells cds
      (tf1 :: cells1, err)

/-- Populate all table rows from the data grid (row index never exceeds the
created row count since the table was created with `rows = len(data)`). -/
def populateRows : TableCells → List (List CellData) → TableCells × Option PyErr
  | tbl, [] => (tbl, none)
  | [], _ :: _ => ([], some .indexError)
  | row :: tbl, rd :: rds =>
    match populateRowCells row rd with
    | (row1, some e) => (row1 :: tbl, some e)
    | (row1, none) =>
      let (tbl1, err) := populateRows tbl rds
      (row1 :: tbl1, err)

/-- A fresh table cell: a text frame with one empty paragraph. -/
def emptyCellTF : TextFrame :=
  {}

/-- Set every run of a text frame to bold (header-row styling loop,
src/apis.py:332-336). -/
def boldTF (tf : TextFrame) : TextFrame :=
  { tf with paragraphs := tf.paragraphs.map fun p =>
      { p with runs := p.runs.map fun r =>
          { r with font := { r.font with bold := some true } } } }

/-- Bold the first row of the cell grid. -/
def boldFirstRow : TableCells → TableCells
  | [] => []
  | row :: rest => row.map boldTF :: rest

/-- apis.add_table (src/apis.py:261-338).  Row count is `len(data)`, column
count is `len(data[0])`; when either is zero the function returns None
without touching the slide.  Otherwise the table shape is added (default
width 8, estimated height 0.5 per row), the cells are populated (a too-long
row raises IndexError after the table was added), and when
`first_row_is_header` is set every run of the first row is made bold. -/
def add_table (sl : Slide) (data : List (List CellData)) (left top : ℚ)
    (width height : Option ℚ) (columnWidths : Option (List ℚ))
    (firstRowIsHeader : Bool) : Slide × Except PyErr (Option TableCells) :=
  let rows := data.length
  let cols := (data.headD []).length
  if rows = 0 ∨ cols = 0 then
    (sl, .ok none)
  else
    let w : ℚ := match width with
      | some w => w
      | none => match columnWidths with
        | some cw => cw.sum
        | none => 8
    let h : ℚ := match height with
      | some h => h
      | none => (1 / 2 : ℚ) * rows
    let cw := match columnWidths with
      | some cw => if cw.length = cols then some cw else none
      | none => none
    let tbl0 : TableCells := List.replicate rows (List.replicate cols emptyCellTF)
    match populateRows tbl0 data with
    | (tbl1, some e) =>
      ({ sl with shapes := sl.shapes ++ [.tableShape left top w h cw tbl1] },
        .error e)
    | (tbl1, none) =>
      let tbl2 := if firstRowIsHeader then boldFirstRow tbl1 else tbl1
      ({ sl with shapes := sl.shapes ++ [.tableShape left top w h cw tbl2] },
        .ok (some tbl2))

/-! ### apis.add_header_footer and apis.save_presentation -/

/-- Whether a python-pptx slide object has an attribute named
`has_header_footer`: python-pptx's `Slide` class exposes no such attribute
(nor `footer`, `slide_number` or `date` — the library has no per-slide
header/footer API; the function's own comment concedes headers are not
supported), so `hasattr(slide, 'has_header_footer')` is False for every
slide. -/
def slideHasHeaderFooterAttr (_sl : Slide) : Bool :=
  false

/-- apis.add_header_footer (src/apis.py:375-410).  The loop guard
`hasattr(slide, 'has_header_footer') and slide.has_header_footer` is False
for every slide (see `slideHasHeaderFooterAttr`), so the guarded body (footer
text, slide-number and date visibility, header text box) is unreachable and
is not modelled: every slide passes through unchanged. -/
def add_header_footer (prs : Pres) (_headerText _footerText : Option String)
    (_slideNumber _date : Bool) : Pres :=
  { prs with slides := prs.slides.map fun s =>
      if slideHasHeaderFooterAttr s then s else s }

/-- The path apis.save_presentation writes to (src/apis.py:421-422):
'.pptx' is appended unless the filename already ends with it. -/
def savePath (filename : String) : String :=
  if pyEndsWith filename ".pptx" then filename else filename ++ ".pptx"

/-- apis.save_presentation (src/apis.py:413-424): one `prs.save` call, i.e.
exactly one written file path. -/
def save_presentation (_prs : Pres) (filename : String) : List String :=
  [savePath filename]

/-! ### apis.create_complete_presentation -/

/-- The `options` dict of apis.create_complete_presentation; a `none` field
is an absent key (the pptx_services layer, modelled from the spec, puts no
entry for an omitted optional tool argument). -/
structure Options where
  subtitle : Option String := none
  header : Option String := none
  footer : Option String := none
  filename : Option String := none
  titleSlideColor : Option RGB := none
  slideNumber : Option Bool := none
  date : Option Bool := none
deriving DecidableEq, Repr

/-- The `image_options` dict of a content-slide specification. -/
structure ImageOptions where
  top : Option ℚ := none
  left : Option ℚ := none
  width : Option ℚ := none
  height : Option ℚ := none
deriving DecidableEq, Repr

/-- The `chart_options` dict of a content-slide specification. -/
structure ChartOptions where
  top : Option ℚ := none
  left : Option ℚ := none
  width : Option ℚ := none
  height : Option ℚ := none
  title : Option String := none
deriving DecidableEq, Repr

/-- The `table_options` dict of a content-slide specification. -/
structure TableOptions where
  top : Option ℚ := none
  left : Option ℚ := none
  width : Option ℚ := none
  height : Option ℚ := none
  columnWidths : Option (List ℚ) := none
  firstRowIsHeader : Option Bool := none
deriving DecidableEq, Repr

/-- One content-slide specification dict; a `none` field is an absent key. -/
structure SlideContent where
  layoutIndex : Option Nat := none
  title : Option String := none
  text : Option String := none
  bullets : Option (List String) := none
  image : Option String := none
  imageOptions : ImageOptions := {}
  chartType : Option ChartType := none
  chartCategories : Option (List String) := none
  chartData : Option (List (String × List ℚ)) := none
  chartOptions : ChartOptions := {}
  tableData : Option (List (List CellData)) := none
  tableOptions : TableOptions := {}
deriving DecidableEq, Repr

/-- Run a slide operation on the last slide of the presentation, writing the
mutated slide back (Python holds a reference into `prs.slides`; apis only
ever mutates the slide it just appended). -/
def onLastSlide {α : Type} (prs : Pres) (f : Slide → Slide × Except PyErr α) :
    Pres × Except PyErr α :=
  match prs.slides.getLast? with
  | none => (prs, .error .indexError)
  | some sl =>
    let (sl1, r) := f sl
    ({ prs with slides := prs.slides.dropLast ++ [sl1] }, r)

/-- One iteration of the content-slide loop of
apis.create_complete_presentation (src/apis.py:469-551): create the slide,
then append paragraph text, bullets, image, chart and table in that order,
advancing the running vertical cursor by each element's estimated height plus
a fixed gap. -/
def buildContentSlide (fs : List String) (prs0 : Pres) (c : SlideContent) :
    Except PyErr Pres := do
  let (prs1, slr) := add_slide prs0 (c.layoutIndex.getD 1) c.title none
  match slr with
  | .error e => throw e
  | .ok _ => do
    -- current_top = Inches(1.5)
    let top0 : ℚ := 3 / 2
    -- text content: estimated height len(text)/100 + 0.5
    let (prs2, top1) ← match c.text with
      | none => pure (prs1, top0)
      | some txt => do
        let th : ℚ := (txt.length : ℚ) / 100 + 1 / 2
        let (prs', r) := onLastSlide prs1 fun sl =>
          add_paragraph sl txt 1 top0 8 th 16 "Calibri" (0, 0, 0) .left 1
        match r with
        | .error e => throw e
        | .ok _ => pure (prs', top0 + th + 1 / 5)
    -- bullet points: estimated height n*0.3 + 0.2
    let (prs3, top2) ← match c.bullets with
      | none => pure (prs2, top1)
      | some items => do
        let bh : ℚ := (items.length : ℚ) * (3 / 10) + 1 / 5
        let (prs', r) := onLastSlide prs2 fun sl =>
          add_bullet_list sl items 1 top1 8 bh 16 "Calibri" (0, 0, 0) 0 none
        match r with
        | .error e => throw e
        | .ok _ => pure (prs', top1 + bh + 1 / 5)
    -- image
    let (prs4, top3) ← match c.image with
      | none => pure (prs3, top2)
      | some path => do
        let io := c.imageOptions
        let imgTop := io.top.getD top2
        let imgLeft := io.left.getD 1
        let imgWidth := some (io.width.getD 4)
        let imgHeight := io.height
        let (prs', r) := onLastSlide prs3 fun sl =>
          add_image fs sl path imgLeft imgTop imgWidth imgHeight
        match r with
        | .error e => throw e
        | .ok _ =>
          if pyTruthyQ imgHeight then
            pure (prs', imgTop + imgHeight.getD 0 + 1 / 5)
          else
            pure (prs', top2 + 3 + 1 / 5)
    -- chart: requires chart_type, chart_categories and chart_data keys
    let (prs5, _top4) ←
      match c.chartType, c.chartCategories, c.chartData with
      | some ct, some cats, some series => do
        let co := c.chartOptions
        let chartTop := co.top.getD top3
        let chartLeft := co.left.getD 1
        let chartWidth := co.width.getD 8
        let chartHeight := co.height.getD 4
        let (prs', r) := onLastSlide prs4 fun sl =>
          add_chart sl ct cats series chartLeft chartTop chartWidth chartHeight
            co.title
        match r with
        | .error e => throw e
        | .ok _ => pure (prs', chartTop + chartHeight + 1 / 5)
      | _, _, _ => pure (prs4, top3)
    -- table
    match c.tableData with
    | none => pure prs5
    | some data => do
      let toq := c.tableOptions
      let (prs', r) := onLastSlide prs5 fun sl =>
        add_table sl data (toq.left.getD 1) (toq.top.getD top3) toq.width
          toq.height toq.columnWidths (toq.firstRowIsHeader.getD true)
      match r with
      | .error e => throw e
      | .ok _ => pure prs'

/-- The build steps of apis.create_complete_presentation
(src/apis.py:439-559): title slide with background colour (default
(0, 136, 204)), centred bold title text, optional subtitle, one content
slide per specification, and the optional header/footer pass.  The save step
is not included here. -/
def ccpBuild (fs : List String) (title : String) (slidesContent : List SlideContent)
    (options : Options) : Except PyErr Pres := do
  let prs0 := create_presentation
  let titleSlideColor := options.titleSlideColor.getD (0, 136, 204)
  let (prs1, r1) := add_slide prs0 0 none (some titleSlideColor)
  match r1 with
  | .error e => throw e
  | .ok _ => do
    let (prs2, r2) := onLastSlide prs1 fun sl =>
      add_text sl title 1 (5 / 2) 8 (3 / 2) 44 "Calibri" (255, 255, 255)
        true false false .center
    match r2 with
    | .error e => throw e
    | .ok _ => do
      let prs3 ← match options.subtitle with
        | none => pure prs2
        | some sub => do
          let (prs', r) := onLastSlide prs2 fun sl =>
            add_text sl sub 1 4 8 1 24 "Calibri" (255, 255, 255)
              false false false .center
          match r with
          | .error e => throw e
          | .ok _ => pure prs'
      let prs4 ← slidesContent.foldlM (buildContentSlide fs) prs3
      if options.header.isSome || options.footer.isSome then
        pure (add_header_footer prs4 options.header options.footer
          (options.slideNumber.getD true) (options.date.getD true))
      else
        pure prs4

/-- apis.create_complete_presentation (src/apis.py:427-565): the build steps
followed by `if 'filename' in options: save_presentation(prs, ...)`.  The
result pairs the presentation with the list of written file paths. -/
def create_complete_presentation (fs : List String) (title : String)
    (slidesContent : List SlideContent) (options : Options) :
    Except PyErr (Pres × List String) :=
  match ccpBuild fs title slidesContent options with
  | .error e => .error e
  | .ok prs =>
    match options.filename with
    | some f => .ok (prs, save_presentation prs f)
    | none => .ok (prs, [])

/-! ## Session registry (pptx_services)

Modelled from the spec: the module `pptx_services` imported by
src/mcp_server.py is not part of the repository snapshot; the Handle
Allocator and Session Registry are modelled from spec sections 4.1 and 4.2.
Handles are naturals drawn from one counter, so uniqueness holds across
kinds; an entry stores kind, optional parent handle and the backend object;
no update or delete is exposed. -/

/-- Entity kinds of the registry. -/
inductive Kind where
  | presentation
  | slide
  | shape
deriving DecidableEq, Repr

/-- The kind a parent entry must have. -/
def Kind.parentKind : Kind → Option Kind
  | .presentation => none
  | .slide => some .presentation
  | .shape => some .slide

/-- Registry-level failures (spec section 7). -/
inductive RegErr where
  | notFound
  | kindMismatch
  | invalidParent
deriving DecidableEq, Repr

/-- One registry entry: handle, kind, parent handle, backend object. -/
structure Entry (β : Type) where
  handle : Nat
  kind : Kind
  parent : Option Nat
  obj : β
deriving DecidableEq, Repr

/-- Modelled from the spec: the Session Registry state — the allocator's
next handle and the entries in insertion order. -/
structure Registry (β : Type) where
  next : Nat := 0
  entries : List (Entry β) := []
deriving DecidableEq, Repr

/-- Find the entry of a handle. -/
def Registry.findEntry {β : Type} (r : Registry β) (h : Nat) : Option (Entry β) :=
  r.entries.find? fun e => e.handle = h

/-- Modelled from the spec: `register(kind, parent_handle_or_none,
backend_object) -> Handle` allocates a fresh handle, stores the entry and
returns the handle; it fails with InvalidParent iff a non-null parent does
not resolve to an existing entry of the expected kind. -/
def Registry.register {β : Type} (r : Registry β) (k : Kind) (parent : Option Nat)
    (obj : β) : Except RegErr (Nat × Registry β) :=
  match parent with
  | none =>
    .ok (r.next, { next := r.next + 1, entries := r.entries ++ [⟨r.next, k, none, obj⟩] })
  | some p =>
    match r.findEntry p with
    | none => .error .invalidParent
    | some pe =>
      if k.parentKind = some pe.kind then
        .ok (r.next, { next := r.next + 1, entries := r.entries ++ [⟨r.next, k, some p, obj⟩] })
      else
        .error .invalidParent

/-- Modelled from the spec: `resolve(handle, expected_kind)` fails with
NotFound for a handle never registered and with KindMismatch for a handle
registered under a different kind; otherwise it returns the stored backend
object. -/
def Registry.resolve {β : Type} (r : Registry β) (h : Nat) (k : Kind) :
    Except RegErr β :=
  match r.findEntry h with
  | none => .error .notFound
  | some e => if e.kind = k then .ok e.obj else .error .kindMismatch

/-- Modelled from the spec: `children(handle)` — the child handles in
insertion order. -/
def Registry.children {β : Type} (r : Registry β) (h : Nat) : List Nat :=
  (r.entries.filter fun e => e.parent = some h).map Entry.handle

/-- Run a batch of register calls, keeping the state of failed calls
unchanged. -/
def Registry.registerMany {β : Type} (r : Registry β)
    (l : List (Kind × Option Nat × β)) : Registry β :=
  l.foldl (fun acc x =>
    match acc.register x.1 x.2.1 x.2.2 with
    | .ok (_, r1) => r1
    | .error _ => acc) r

/-- The handles present in the registry. -/
def Registry.handles {β : Type} (r : Registry β) : List Nat :=
  r.entries.map Entry.handle

/-- Registry invariant: every stored handle is below the allocator counter
and no handle occurs twice. -/
def Registry.Inv {β : Type} (r : Registry β) : Prop :=
  (∀ e ∈ r.entries, e.handle < r.next) ∧ r.handles.Nodup

/-! ## Tool dispatcher (pptx_services service layer)

Modelled from the spec (section 4.4): each exposed operation validates its
arguments, resolves the required handles, calls the apis.py adapter,
registers any new backend object and returns the new handle (or a status for
save / header-footer).  Backend objects live in a heap of presentations; a
registered object is a reference into that heap. -/

/-- Reference to a backend object: a presentation, a slide of a
presentation, or a shape of a slide (indices into the heap). -/
inductive BackendRef where
  | pres (i : Nat)
  | slide (i j : Nat)
  | shape (i j k : Nat)
deriving DecidableEq, Repr

/-- Caller-visible error kinds (spec section 7). -/
inductive ToolErr where
  | notFound
  | invalidArgument
  | resourceNotFound
  | backendFailure
deriving DecidableEq, Repr

/-- Error mapping of registry failures (spec section 7: NotFound is surfaced
verbatim; KindMismatch and InvalidParent are surfaced as InvalidArgument). -/
def mapRegErr : RegErr → ToolErr
  | .notFound => .notFound
  | .kindMismatch => .invalidArgument
  | .invalidParent => .invalidArgument

/-- Error mapping of backend exceptions (spec section 7: a missing resource
is surfaced as-is, any other library failure as a BackendFailure). -/
def mapPyErr : PyErr → ToolErr
  | .fileNotFoundError => .resourceNotFound
  | .indexError => .backendFailure
  | .attributeError => .backendFailure

/-- Whole service state: registry, backend heap, filesystem (read-only) and
the paths written by saves. -/
structure SState where
  registry : Registry BackendRef := {}
  heap : List Pres := []
  fs : List String := []
  writes : List String := []
deriving Repr

/-- The initial state of a freshly started server. -/
def initState (fs : List String) : SState :=
  { fs := fs }

/-- Register a freshly created backend object and install the updated heap
(all-or-nothing: the handle is returned only with the entry stored). -/
def SState.registerNew (st : SState) (k : Kind) (parent : Option Nat)
    (ref : BackendRef) (heap1 : List Pres) : Except ToolErr Nat × SState :=
  match st.registry.register k parent ref with
  | .ok (h, r1) => (.ok h, { st with registry := r1, heap := heap1 })
  | .error e => (.error (mapRegErr e), { st with heap := heap1 })

/-- Resolve a presentation handle and hand its heap object to `f`. -/
def withPres (st : SState) (pid : Nat)
    (f : Nat → Pres → Except ToolErr Nat × SState) : Except ToolErr Nat × SState :=
  match st.registry.resolve pid .presentation with
  | .error e => (.error (mapRegErr e), st)
  | .ok (.pres i) =>
    match st.heap[i]? with
    | none => (.error .backendFailure, st)
    | some prs => f i prs
  | .ok _ => (.error .backendFailure, st)

/-- Resolve a presentation handle and a slide handle and hand the slide's
heap object to `f`. -/
def withSlide (st : SState) (pid sid : Nat)
    (f : Nat → Nat → Pres → Slide → Except ToolErr Nat × SState) :
    Except ToolErr Nat × SState :=
  match st.registry.resolve pid .presentation with
  | .error e => (.error (mapRegErr e), st)
  | .ok _ =>
    match st.registry.resolve sid .slide with
    | .error e => (.error (mapRegErr e), st)
    | .ok (.slide i j) =>
      match st.heap[i]? with
      | none => (.error .backendFailure, st)
      | some prs =>
        match prs.slides[j]? with
        | none => (.error .backendFailure, st)
        | some sl => f i j prs sl
    | .ok _ => (.error .backendFailure, st)

/-- Run an apis.py shape operation on a resolved slide: the mutated slide is
written back to the heap whether or not the operation raised (in-place
mutation persists); on success the new shape is registered under the slide
and its handle returned, on failure the mapped error is returned and no
handle is issued. -/
def svcShapeOp {α : Type} (st : SState) (pid sid : Nat)
    (op : Slide → Slide × Except PyErr α) : Except ToolErr Nat × SState :=
  withSlide st pid sid fun i j prs sl =>
    let (sl1, res) := op sl
    let heap1 := st.heap.set i { prs with slides := prs.slides.set j sl1 }
    match res with
    | .error e => (.error (mapPyErr e), { st with heap := heap1 })
    | .ok _ => st.registerNew .shape (some sid) (.shape i j sl.shapes.length) heap1

/-! ### Argument validation (spec section 4.3/7: enum names are checked
against the fixed enumeration before any backend call) -/

/-- Modelled from the spec: the alignment names accepted by the tool layer. -/
def alignOfString (s : String) : Option Align :=
  if s = "LEFT" then some .left
  else if s = "CENTER" then some .center
  else if s = "RIGHT" then some .right
  else none

/-- Modelled from the spec: the supported chart type names (the fixed
enumeration documented on the add_chart tool). -/
def chartTypeOfString (s : String) : Option ChartType :=
  if s = "BAR_CLUSTERED" then some .barClustered
  else if s = "BAR_STACKED" then some .barStacked
  else if s = "COLUMN_CLUSTERED" then some .columnClustered
  else if s = "LINE" then some .line
  else if s = "PIE" then some .pie
  else if s = "SCATTER" then some .scatter
  else if s = "AREA" then some .area
  else if s = "RADAR" then some .radar
  else none

/-- Modelled from the spec: the supported shape type names (the fixed
enumeration documented on the add_shape tool). -/
def shapeTypeOfString (s : String) : Option ShapeType :=
  if s = "RECTANGLE" then some .rectangle
  else if s = "OVAL" then some .oval
  else if s = "TRIANGLE" then some .triangle
  else if s = "ARROW" then some .arrow
  else none

/-- Modelled from the spec: table data is valid iff the grid is non-empty
with a non-empty first row and every row has the first row's length (a
malformed grid is rejected with InvalidArgument before any backend call). -/
def validTableData (data : List (List CellData)) : Bool :=
  !data.isEmpty && !(data.headD []).isEmpty &&
    data.all fun row => row.length = (data.headD []).length

/-! ### The service operations (pptx_services, modelled from the spec) -/

namespace Svc

/-- Modelled from the spec: the create_presentation tool — create a backend
presentation, register it (no parent) and return its handle; the filename
argument has no specified effect beyond the tool signature. -/
def create_presentation (st : SState) (_filename : String) :
    Except ToolErr Nat × SState :=
  st.registerNew .presentation none (.pres st.heap.length)
    (st.heap ++ [Pptx.create_presentation])

/-- Modelled from the spec: the add_slide tool — resolve the presentation,
call apis.add_slide, register the new slide under the presentation. -/
def add_slide (st : SState) (pid : Nat) (layoutIndex : Nat)
    (title : Option String) (bg : Option RGB) : Except ToolErr Nat × SState :=
  withPres st pid fun i prs =>
    let (prs1, res) := Pptx.add_slide prs layoutIndex title bg
    let heap1 := st.heap.set i prs1
    match res with
    | .error e => (.error (mapPyErr e), { st with heap := heap1 })
    | .ok _ => st.registerNew .slide (some pid) (.slide i prs.slides.length) heap1

/-- Modelled from the spec: the add_text tool — validate the alignment name,
resolve handles, call apis.add_text, register the shape. -/
def add_text (st : SState) (pid sid : Nat) (text : String)
    (left top width height fontSize : ℚ) (fontName : String) (color : RGB)
    (bold italic underline : Bool) (alignment : String) :
    Except ToolErr Nat × SState :=
  match alignOfString alignment with
  | none => (.error .invalidArgument, st)
  | some al => svcShapeOp st pid sid fun sl =>
      Pptx.add_text sl text left top width height fontSize fontName color
        bold italic underline al

/-- Modelled from the spec: the add_paragraph tool. -/
def add_paragraph (st : SState) (pid sid : Nat) (text : String)
    (left top width height fontSize : ℚ) (fontName : String) (color : RGB)
    (alignment : String) (lineSpacing : ℚ) : Except ToolErr Nat × SState :=
  match alignOfString alignment with
  | none => (.error .invalidArgument, st)
  | some al => svcShapeOp st pid sid fun sl =>
      Pptx.add_paragraph sl text left top width height fontSize fontName color
        al lineSpacing

/-- Modelled from the spec: the add_bullet_list tool. -/
def add_bullet_list (st : SState) (pid sid : Nat) (items : List String)
    (left top width height fontSize : ℚ) (fontName : String) (color : RGB)
    (level : Nat) (bulletCharacter : Option String) :
    Except ToolErr Nat × SState :=
  svcShapeOp st pid sid fun sl =>
    Pptx.add_bullet_list sl items left top width height fontSize fontName color
      level bulletCharacter

/-- Modelled from the spec: the add_image tool — resolve handles and call
apis.add_image; a missing file surfaces as ResourceNotFound and registers
nothing. -/
def add_image (st : SState) (pid sid : Nat) (imagePath : String)
    (left top : ℚ) (width height : Option ℚ) : Except ToolErr Nat × SState :=
  svcShapeOp st pid sid fun sl =>
    Pptx.add_image st.fs sl imagePath left top width height

/-- Modelled from the spec: the add_chart tool — the chart type name is
validated against the fixed enumeration before anything else happens. -/
def add_chart (st : SState) (pid sid : Nat) (chartType : String)
    (categories : List String) (dataSeries : List (String × List ℚ))
    (left top width height : ℚ) (chartTitle : Option String) :
    Except ToolErr Nat × SState :=
  match chartTypeOfString chartType with
  | none => (.error .invalidArgument, st)
  | some ct => svcShapeOp st pid sid fun sl =>
      Pptx.add_chart sl ct categories dataSeries left top width height chartTitle

/-- Modelled from the spec: the add_table tool — the data grid is validated
(non-empty, rectangular) before anything else happens. -/
def add_table (st : SState) (pid sid : Nat) (data : List (List CellData))
    (left top : ℚ) (width height : Option ℚ) (columnWidths : Option (List ℚ))
    (firstRowIsHeader : Bool) : Except ToolErr Nat × SState :=
  if validTableData data then
    svcShapeOp st pid sid fun sl =>
      Pptx.add_table sl data left top width height columnWidths firstRowIsHeader
  else
    (.error .invalidArgument, st)

/-- Modelled from the spec: the add_shape tool — the shape type name is
validated against the fixed enumeration before anything else happens. -/
def add_shape (st : SState) (pid sid : Nat) (shapeType : String)
    (left top width height : ℚ) (fillColor lineColor : Option RGB)
    (lineWidth : ℚ) : Except ToolErr Nat × SState :=
  match shapeTypeOfString shapeType with
  | none => (.error .invalidArgument, st)
  | some ty => svcShapeOp st pid sid fun sl =>
      Pptx.add_shape sl ty left top width height fillColor lineColor lineWidth

/-- Modelled from the spec: the add_header_footer tool — resolve the
presentation, run the apis bulk operation, return a status. -/
def add_header_footer (st : SState) (pid : Nat) (headerText footerText : Option String)
    (slideNumber date : Bool) : Except ToolErr String × SState :=
  match st.registry.resolve pid .presentation with
  | .error e => (.error (mapRegErr e), st)
  | .ok (.pres i) =>
    match st.heap[i]? with
    | none => (.error .backendFailure, st)
    | some prs =>
      let prs1 := Pptx.add_header_footer prs headerText footerText slideNumber date
      (.ok "ok", { st with heap := st.heap.set i prs1 })
  | .ok _ => (.error .backendFailure, st)

/-- Modelled from the spec: the save_presentation tool — resolve the
presentation and record the written path; returns the file path. -/
def save_presentation (st : SState) (pid : Nat) (filename : String) :
    Except ToolErr String × SState :=
  match st.registry.resolve pid .presentation with
  | .error e => (.error (mapRegErr e), st)
  | .ok (.pres i) =>
    match st.heap[i]? with
    | none => (.error .backendFailure, st)
    | some prs =>
      (.ok (savePath filename),
        { st with writes := st.writes ++ Pptx.save_presentation prs filename })
  | .ok _ => (.error .backendFailure, st)

/-- Modelled from the spec: the create_complete_presentation tool — assemble
the options mapping from the optional tool arguments (an omitted argument
contributes no entry), run the apis composite builder, register the new
presentation and return its handle. -/
def create_complete_presentation (st : SState) (title : String)
    (slidesContent : List SlideContent) (subtitle header footer filename : Option String)
    (titleSlideColor : Option RGB) : Except ToolErr Nat × SState :=
  let opts : Options :=
    { subtitle := subtitle,
      header := header,
      footer := footer,
      filename := filename,
      titleSlideColor := titleSlideColor }
  match Pptx.create_complete_presentation st.fs title slidesContent opts with
  | .error e => (.error (mapPyErr e), st)
  | .ok (prs, ws) =>
    let st1 := { st with writes := st.writes ++ ws }
    st1.registerNew .presentation none (.pres st1.heap.length) (st1.heap ++ [prs])

end Svc

/-! ### Tool-call sequences -/

/-- One tool call with its arguments (the remotely invokable surface of
src/mcp_server.py). -/
inductive Op where
  | createPresentation (filename : String)
  | addSlide (pid : Nat) (layoutIndex : Nat) (title : Option String) (bg : Option RGB)
  | addText (pid sid : Nat) (text : String) (left top width height fontSize : ℚ)
      (fontName : String) (color : RGB) (bold italic underline : Bool)
      (alignment : String)
  | addParagraph (pid sid : Nat) (text : String) (left top width height fontSize : ℚ)
      (fontName : String) (color : RGB) (alignment : String) (lineSpacing : ℚ)
  | addBulletList (pid sid : Nat) (items : List String)
      (left top width height fontSize : ℚ) (fontName : String) (color : RGB)
      (level : Nat) (bulletCharacter : Option String)
  | addImage (pid sid : Nat) (imagePath : String) (left top : ℚ)
      (width height : Option ℚ)
  | addChart (pid sid : Nat) (chartType : String) (categories : List String)
      (dataSeries : List (String × List ℚ)) (left top width height : ℚ)
      (chartTitle : Option String)
  | addTable (pid sid : Nat) (data : List (List CellData)) (left top : ℚ)
      (width height : Option ℚ) (columnWidths : Option (List ℚ))
      (firstRowIsHeader : Bool)
  | addShape (pid sid : Nat) (shapeType : String) (left top width height : ℚ)
      (fillColor lineColor : Option RGB) (lineWidth : ℚ)
  | addHeaderFooter (pid : Nat) (headerText footerText : Option String)
      (slideNumber date : Bool)
  | savePresentation (pid : Nat) (filename : String)
  | createComplete (title : String) (slidesContent : List SlideContent)
      (subtitle header footer filename : Option String)
      (titleSlideColor : Option RGB)

/-- The handle a handle-returning tool call produced, if it succeeded. -/
def handleOf (out : Except ToolErr Nat × SState) : Option Nat × SState :=
  (out.1.toOption, out.2)

/-- A status-returning tool call produces no handle. -/
def statusOf (out : Except ToolErr String × SState) : Option Nat × SState :=
  (none, out.2)

/-- Dispatch one tool call, returning the issued handle (if any) and the new
state. -/
def stepOp (st : SState) : Op → Option Nat × SState
  | .createPresentation f => handleOf (Svc.create_presentation st f)
  | .addSlide pid li t bg => handleOf (Svc.add_slide st pid li t bg)
  | .addText pid sid txt l t w h fsz fn c b it u al =>
    handleOf (Svc.add_text st pid sid txt l t w h fsz fn c b it u al)
  | .addParagraph pid sid txt l t w h fsz fn c al ls =>
    handleOf (Svc.add_paragraph st pid sid txt l t w h fsz fn c al ls)
  | .addBulletList pid sid items l t w h fsz fn c lv bc =>
    handleOf (Svc.add_bullet_list st pid sid items l t w h fsz fn c lv bc)
  | .addImage pid sid p l t w h => handleOf (Svc.add_image st pid sid p l t w h)
  | .addChart pid sid ct cats ds l t w h ti =>
    handleOf (Svc.add_chart st pid sid ct cats ds l t w h ti)
  | .addTable pid sid data l t w h cw hd =>
    handleOf (Svc.add_table st pid sid data l t w h cw hd)
  | .addShape pid sid ty l t w h fc lc lw =>
    handleOf (Svc.add_shape st pid sid ty l t w h fc lc lw)
  | .addHeaderFooter pid ht ft sn dt =>
    statusOf (Svc.add_header_footer st pid ht ft sn dt)
  | .savePresentation pid f => statusOf (Svc.save_presentation st pid f)
  | .createComplete ti sc su hd ft fn co =>
    handleOf (Svc.create_complete_presentation st ti sc su hd ft fn co)

/-- Run a sequence of tool calls, collecting every handle returned. -/
def runOps (st : SState) : List Op → List Nat × SState
  | [] => ([], st)
  | op :: ops =>
    let (h, st1) := stepOp st op
    let (hs, st2) := runOps st1 ops
    (h.toList ++ hs, st2)

/-! ## Auxiliary definitions used by the claim statements -/

/-- Outcome contract of a handle-returning service operation: the allocator
counter never decreases, and a returned handle is exactly the counter at call
time (with the counter strictly advanced). -/
def RegOut (st : SState) (out : Except ToolErr Nat × SState) : Prop :=
  st.registry.next ≤ out.2.registry.next ∧
    ∀ h, out.1 = .ok h → h = st.registry.next ∧ st.registry.next < out.2.registry.next

/-- Outcome contract of one dispatched tool call. -/
def StepOK (st : SState) (out : Option Nat × SState) : Prop :=
  st.registry.next ≤ out.2.registry.next ∧
    ∀ h, out.1 = some h → h = st.registry.next ∧ st.registry.next < out.2.registry.next

/-- The empty registry over natural-number backend objects. -/
def emptyNatRegistry : Registry Nat :=
  {}

/-- A two-entry registry: presentation 0 holding object 7, slide 1 holding
object 9. -/
def twoEntryRegistry : Registry Nat :=
  { next := 2, entries := [⟨0, .presentation, none, 7⟩, ⟨1, .slide, some 0, 9⟩] }

/-- A presentation with one slide, as built by create_presentation followed
by add_slide with the default layout. -/
def oneSlidePres : Pres :=
  (add_slide create_presentation 1 none none).1

/-- The slide of the C6 witness state. -/
def witnessSlide : Slide :=
  { layoutIndex := 1 }

/-- The presentation of the C6 witness state. -/
def witnessPres : Pres :=
  { slides := [witnessSlide] }

/-- A service state holding one presentation (handle 0) with one slide
(handle 1) over an empty filesystem. -/
def witnessState : SState :=
  { registry :=
      { next := 2,
        entries := [⟨0, .presentation, none, .pres 0⟩, ⟨1, .slide, some 0, .slide 0 0⟩] },
    heap := [witnessPres],
    fs := [],
    writes := [] }

/-- The text frame of a table cell after `cell.text = s`. -/
def strCellTF (s : String) : TextFrame :=
  { emptyCellTF with paragraphs := textToParagraphs s }

/-- Whether every run of the text frame is explicitly bold. -/
def tfRunsBold (tf : TextFrame) : Bool :=
  tf.paragraphs.all fun p => p.runs.all fun r => r.font.bold = some true

/-- The queried-back header styling: every run of the first row is bold. -/
def firstRowBold (cells : TableCells) : Bool :=
  (cells.headD []).all tfRunsBold

/-- Whether some cell of the row holds at least one text run. -/
def rowHasRun (row : List TextFrame) : Bool :=
  row.any fun tf => tf.paragraphs.any fun p => !p.runs.isEmpty

/-- The cell grid of an add_table result, if the call returned a table. -/
def tableCellsOf (r : Slide × Except PyErr (Option TableCells)) : Option TableCells :=
  match r.2 with
  | .ok c => c
  | .error _ => none

/-- The file paths written by a composite build (none when the build
raised). -/
def writesOf (r : Except PyErr (Pres × List String)) : List String :=
  match r with
  | .ok pw => pw.2
  | .error _ => []

/-- Whether a composite build succeeded. -/
def isOkE (r : Except PyErr (Pres × List String)) : Bool :=
  match r with
  | .ok _ => true
  | .error _ => false

/-- A minimal content slide holding one paragraph of text. -/
def witnessContent : SlideContent :=
  { text := some "hello" }

/-! ## Lemmas: handle allocation -/

theorem Registry.register_ok {β : Type} {r : Registry β} {k : Kind}
    {p : Option Nat} {o : β} {h : Nat} {r1 : Registry β}
    (hreg : r.register k p o = .ok (h, r1)) :
    h = r.next ∧ r1.next = r.next + 1 ∧
      r1.entries = r.entries ++ [⟨r.next, k, p, o⟩] := by
  unfold Registry.register at hreg
  split at hreg
  · simp only [Except.ok.injEq, Prod.mk.injEq] at hreg
    exact ⟨hreg.1.symm, by rw [← hreg.2]; exact ⟨rfl, rfl⟩⟩
  · split at hreg
    · exact absurd hreg (by simp)
    · split at hreg
      · simp only [Except.ok.injEq, Prod.mk.injEq] at hreg
        exact ⟨hreg.1.symm, by rw [← hreg.2]; exact ⟨rfl, rfl⟩⟩
      · exact absurd hreg (by simp)


theorem regOut_error {st : SState} {e : ToolErr} {st1 : SState}
    (hreg : st1.registry = st.registry) : RegOut st (.error e, st1) := by
  refine ⟨by rw [hreg], fun h hh => ?_⟩
  exact Except.noConfusion hh

theorem regOut_congr {st st1 : SState} {out : Except ToolErr Nat × SState}
    (hreg : st1.registry = st.registry) (h : RegOut st1 out) : RegOut st out := by
  unfold RegOut at h ⊢
  rw [hreg] at h
  exact h

theorem regOut_registerNew (st : SState) (k : Kind) (p : Option Nat)
    (ref : BackendRef) (heap1 : List Pres) :
    RegOut st (st.registerNew k p ref heap1) := by
  unfold SState.registerNew
  split
  next h r1 heq =>
    obtain ⟨hh, hn, _⟩ := Registry.register_ok heq
    refine ⟨by simp [hn], fun h0 hh0 => ?_⟩
    simp only [Except.ok.injEq] at hh0
    subst hh0
    exact ⟨hh, by simp [hn]⟩
  next e heq => exact regOut_error rfl

theorem regOut_withPres {st : SState} {pid : Nat}
    {f : Nat → Pres → Except ToolErr Nat × SState}
    (hf : ∀ i prs, RegOut st (f i prs)) : RegOut st (withPres st pid f) := by
  unfold withPres
  repeat' split
  all_goals first
    | exact regOut_error rfl
    | apply hf

theorem regOut_withSlide {st : SState} {pid sid : Nat}
    {f : Nat → Nat → Pres → Slide → Except ToolErr Nat × SState}
    (hf : ∀ i j prs sl, RegOut st (f i j prs sl)) :
    RegOut st (withSlide st pid sid f) := by
  unfold withSlide
  repeat' split
  all_goals first
    | exact regOut_error rfl
    | apply hf

theorem regOut_svcShapeOp {α : Type} (st : SState) (pid sid : Nat)
    (op : Slide → Slide × Except PyErr α) :
    RegOut st (svcShapeOp st pid sid op) := by
  unfold svcShapeOp
  apply regOut_withSlide
  intro i j prs sl
  repeat' split
  all_goals first
    | exact regOut_error rfl
    | exact regOut_registerNew ..

theorem regOut_create_presentation (st : SState) (f : String) :
    RegOut st (Svc.create_presentation st f) :=
  regOut_registerNew ..

theorem regOut_add_slide (st : SState) (pid li : Nat) (t : Option String)
    (bg : Option RGB) : RegOut st (Svc.add_slide st pid li t bg) := by
  unfold Svc.add_slide
  apply regOut_withPres
  intro i prs
  repeat' split
  all_goals first
    | exact regOut_error rfl
    | exact regOut_registerNew ..

theorem regOut_add_text (st : SState) (pid sid : Nat) (txt : String)
    (l t w h fsz : ℚ) (fn : String) (c : RGB) (b it u : Bool) (al : String) :
    RegOut st (Svc.add_text st pid sid txt l t w h fsz fn c b it u al) := by
  unfold Svc.add_text
  split
  · exact regOut_error rfl
  · exact regOut_svcShapeOp ..

theorem regOut_add_paragraph (st : SState) (pid sid : Nat) (txt : String)
    (l t w h fsz : ℚ) (fn : String) (c : RGB) (al : String) (ls : ℚ) :
    RegOut st (Svc.add_paragraph st pid sid txt l t w h fsz fn c al ls) := by
  unfold Svc.add_paragraph
  split
  · exact regOut_error rfl
  · exact regOut_svcShapeOp ..

theorem regOut_add_bullet_list (st : SState) (pid sid : Nat) (items : List String)
    (l t w h fsz : ℚ) (fn : String) (c : RGB) (lv : Nat) (bc : Option String) :
    RegOut st (Svc.add_bullet_list st pid sid items l t w h fsz fn c lv bc) :=
  regOut_svcShapeOp ..

theorem regOut_add_image (st : SState) (pid sid : Nat) (p : String) (l t : ℚ)
    (w h : Option ℚ) : RegOut st (Svc.add_image st pid sid p l t w h) :=
  regOut_svcShapeOp ..

theorem regOut_add_chart (st : SState) (pid sid : Nat) (ct : String)
    (cats : List String) (ds : List (String × List ℚ)) (l t w h : ℚ)
    (ti : Option String) :
    RegOut st (Svc.add_chart st pid sid ct cats ds l t w h ti) := by
  unfold Svc.add_chart
  split
  · exact regOut_error rfl
  · exact regOut_svcShapeOp ..

theorem regOut_add_table (st : SState) (pid sid : Nat)
    (data : List (List CellData)) (l t : ℚ) (w h : Option ℚ)
    (cw : Option (List ℚ)) (hd : Bool) :
    RegOut st (Svc.add_table st pid sid data l t w h cw hd) := by
  unfold Svc.add_table
  split
  · exact regOut_svcShapeOp ..
  · exact regOut_error rfl

theorem regOut_add_shape (st : SState) (pid sid : Nat) (ty : String)
    (l t w h : ℚ) (fc lc : Option RGB) (lw : ℚ) :
    RegOut st (Svc.add_shape st pid sid ty l t w h fc lc lw) := by
  unfold Svc.add_shape
  split
  · exact regOut_error rfl
  · exact regOut_svcShapeOp ..

theorem regOut_create_complete (st : SState) (ti : String)
    (sc : List SlideContent) (su hd ft fn : Option String) (co : Option RGB) :
    RegOut st (Svc.create_complete_presentation st ti sc su hd ft fn co) := by
  unfold Svc.create_complete_presentation
  dsimp only
  split
  · exact regOut_error rfl
  next prs ws heq =>
    exact regOut_congr rfl
      (regOut_registerNew { st with writes := st.writes ++ ws } .presentation none
        (.pres st.heap.length) (st.heap ++ [prs]))

theorem registry_add_header_footer (st : SState) (pid : Nat)
    (ht ft : Option String) (sn dt : Bool) :
    (Svc.add_header_footer st pid ht ft sn dt).2.registry = st.registry := by
  unfold Svc.add_header_footer
  split
  · rfl
  · split <;> rfl
  · rfl

theorem registry_save_presentation (st : SState) (pid : Nat) (f : String) :
    (Svc.save_presentation st pid f).2.registry = st.registry := by
  unfold Svc.save_presentation
  split
  · rfl
  · split <;> rfl
  · rfl


theorem stepOK_handleOf {st : SState} {out : Except ToolErr Nat × SState}
    (h : RegOut st out) : StepOK st (handleOf out) := by
  refine ⟨h.1, fun h0 hh0 => ?_⟩
  apply h.2
  unfold handleOf at hh0
  cases hout : out.1 with
  | ok a => rw [hout] at hh0; simp [Except.toOption] at hh0; rw [hh0]
  | error e => rw [hout] at hh0; simp [Except.toOption] at hh0

theorem stepOK_statusOf {st : SState} {out : Except ToolErr String × SState}
    (h : out.2.registry = st.registry) : StepOK st (statusOf out) := by
  refine ⟨by rw [statusOf, h], fun h0 hh0 => ?_⟩
  exact Option.noConfusion hh0

theorem stepOp_stepOK (st : SState) (op : Op) : StepOK st (stepOp st op) := by
  cases op with
  | createPresentation f => exact stepOK_handleOf (regOut_create_presentation ..)
  | addSlide pid li t bg => exact stepOK_handleOf (regOut_add_slide ..)
  | addText pid sid txt l t w h fsz fn c b it u al =>
    exact stepOK_handleOf (regOut_add_text ..)
  | addParagraph pid sid txt l t w h fsz fn c al ls =>
    exact stepOK_handleOf (regOut_add_paragraph ..)
  | addBulletList pid sid items l t w h fsz fn c lv bc =>
    exact stepOK_handleOf (regOut_add_bullet_list ..)
  | addImage pid sid p l t w h => exact stepOK_handleOf (regOut_add_image ..)
  | addChart pid sid ct cats ds l t w h ti =>
    exact stepOK_handleOf (regOut_add_chart ..)
  | addTable pid sid data l t w h cw hd =>
    exact stepOK_handleOf (regOut_add_table ..)
  | addShape pid sid ty l t w h fc lc lw =>
    exact stepOK_handleOf (regOut_add_shape ..)
  | addHeaderFooter pid ht ft sn dt =>
    exact stepOK_statusOf (registry_add_header_footer ..)
  | savePresentation pid f => exact stepOK_statusOf (registry_save_presentation ..)
  | createComplete ti sc su hd ft fn co =>
    exact stepOK_handleOf (regOut_create_complete ..)

theorem runOps_cons (st : SState) (op : Op) (ops : List Op) :
    runOps st (op :: ops)
      = ((stepOp st op).1.toList ++ (runOps (stepOp st op).2 ops).1,
         (runOps (stepOp st op).2 ops).2) :=
  rfl

theorem runOps_handles (ops : List Op) : ∀ st : SState,
    (∀ x ∈ (runOps st ops).1, st.registry.next ≤ x) ∧ (runOps st ops).1.Nodup := by
  induction ops with
  | nil => intro st; simp [runOps]
  | cons op ops ih =>
    intro st
    obtain ⟨hle, hok⟩ := stepOp_stepOK st op
    obtain ⟨ihb, ihn⟩ := ih (stepOp st op).2
    rw [runOps_cons]
    cases hh : (stepOp st op).1 with
    | none =>
      simp only [hh, Option.toList_none, List.nil_append]
      exact ⟨fun x hx => le_trans hle (ihb x hx), ihn⟩
    | some h =>
      obtain ⟨hhe, hlt⟩ := hok h hh
      simp only [hh, Option.toList_some, List.cons_append, List.nil_append]
      constructor
      · intro x hx
        rcases List.mem_cons.mp hx with hx | hx
        · rw [hx, hhe]
        · exact le_trans (Nat.le_of_lt hlt) (ihb x hx)
      · refine List.nodup_cons.mpr ⟨fun hmem => ?_, ihn⟩
        have := ihb h hmem
        rw [hhe] at this
        exact absurd this (Nat.not_le_of_lt hlt)

/-- C1: for every sequence of create_presentation, add_slide and add_* tool
calls issued to a freshly started server, every identifier returned is
distinct from every identifier returned earlier in the sequence, including
identifiers of a different kind (all handles are drawn from the registry's
single allocator counter). -/
theorem claim1_handles_unique (fs : List String) (ops : List Op) :
    ((runOps (initState fs) ops).1).Nodup :=
  (runOps_handles ops (initState fs)).2

/-! ## Lemmas: registry resolution -/

theorem find?_append_of_some {α : Type} {p : α → Bool} {l1 : List α} (l2 : List α)
    {a : α} (h : l1.find? p = some a) : (l1 ++ l2).find? p = some a := by
  induction l1 with
  | nil => exact absurd h (by simp)
  | cons x xs ih =>
    by_cases hx : p x
    · rw [List.find?_cons_of_pos _ hx] at h
      rw [List.cons_append, List.find?_cons_of_pos _ hx]
      exact h
    · rw [List.find?_cons_of_neg _ hx] at h
      rw [List.cons_append, List.find?_cons_of_neg _ hx]
      exact ih h

theorem find?_append_of_none {α : Type} {p : α → Bool} {l1 : List α} (l2 : List α)
    (h : l1.find? p = none) : (l1 ++ l2).find? p = l2.find? p := by
  induction l1 with
  | nil => simp
  | cons x xs ih =>
    by_cases hx : p x
    · rw [List.find?_cons_of_pos _ hx] at h; exact absurd h (by simp)
    · rw [List.find?_cons_of_neg _ hx] at h
      rw [List.cons_append, List.find?_cons_of_neg _ hx]
      exact ih h

theorem find?_handle_of_mem_nodup {β : Type} {l : List (Entry β)} {e : Entry β}
    (hmem : e ∈ l) (hnd : (l.map Entry.handle).Nodup) :
    l.find? (fun x => x.handle = e.handle) = some e := by
  induction l with
  | nil => exact absurd hmem (by simp)
  | cons x xs ih =>
    have hnd' : x.handle ∉ xs.map Entry.handle ∧ (xs.map Entry.handle).Nodup := by
      rw [List.map_cons, List.nodup_cons] at hnd
      exact hnd
    rcases List.mem_cons.mp hmem with hx | hx
    · rw [hx]
      exact List.find?_cons_of_pos _ (by simp)
    · have hne : ¬(x.handle = e.handle) := by
        intro hcontra
        exact hnd'.1 (hcontra ▸ List.mem_map_of_mem Entry.handle hx)
      rw [List.find?_cons_of_neg _ (by simpa using hne)]
      exact ih hx hnd'.2

theorem findEntry_of_mem_nodup {β : Type} {r : Registry β} {e : Entry β}
    (hmem : e ∈ r.entries) (hnd : r.handles.Nodup) :
    r.findEntry e.handle = some e :=
  find?_handle_of_mem_nodup hmem hnd

theorem findEntry_fresh {β : Type} {r : Registry β}
    (hinv : ∀ e ∈ r.entries, e.handle < r.next) :
    r.entries.find? (fun e => e.handle = r.next) = none := by
  rw [List.find?_eq_none]
  intro e hmem
  simp only [decide_eq_true_eq]
  exact Nat.ne_of_lt (hinv e hmem)

theorem register_resolve {β : Type} {r : Registry β} {k : Kind} {p : Option Nat}
    {o : β} {h : Nat} {r1 : Registry β} (hinv : r.Inv)
    (hreg : r.register k p o = .ok (h, r1)) :
    r1.findEntry h = some ⟨h, k, p, o⟩ := by
  obtain ⟨hh, _, hent⟩ := Registry.register_ok hreg
  unfold Registry.findEntry
  rw [hent, hh]
  rw [find?_append_of_none _ (findEntry_fresh hinv.1)]
  simp [List.find?]

theorem register_inv {β : Type} {r : Registry β} {k : Kind} {p : Option Nat}
    {o : β} {h : Nat} {r1 : Registry β} (hinv : r.Inv)
    (hreg : r.register k p o = .ok (h, r1)) : r1.Inv := by
  obtain ⟨_, hn, hent⟩ := Registry.register_ok hreg
  constructor
  · intro e hmem
    rw [hent] at hmem
    rw [hn]
    rcases List.mem_append.mp hmem with hm | hm
    · exact Nat.lt_succ_of_lt (hinv.1 e hm)
    · simp only [List.mem_singleton] at hm
      rw [hm]
      exact Nat.lt_succ_self _
  · unfold Registry.handles
    rw [hent, List.map_append, List.nodup_append]
    refine ⟨hinv.2, by simp, ?_⟩
    intro a ha hb
    simp only [List.map_cons, List.map_nil, List.mem_singleton] at hb
    simp only [List.mem_map] at ha
    obtain ⟨e, hmem, hae⟩ := ha
    rw [hb] at hae
    exact absurd hae (Nat.ne_of_lt (hinv.1 e hmem))

theorem registerMany_cons {β : Type} (r : Registry β) (x : Kind × Option Nat × β)
    (xs : List (Kind × Option Nat × β)) :
    r.registerMany (x :: xs)
      = (match r.register x.1 x.2.1 x.2.2 with
         | .ok (_, r1) => r1
         | .error _ => r).registerMany xs :=
  rfl

theorem registerMany_entries {β : Type} (l : List (Kind × Option Nat × β)) :
    ∀ r : Registry β, ∃ s, (r.registerMany l).entries = r.entries ++ s := by
  induction l with
  | nil => intro r; exact ⟨[], by simp [Registry.registerMany]⟩
  | cons x xs ih =>
    intro r
    rw [registerMany_cons]
    rcases hreg : r.register x.1 x.2.1 x.2.2 with e | ⟨h1, r1⟩
    · obtain ⟨s, hs⟩ := ih r
      exact ⟨s, hs⟩
    · obtain ⟨-, -, hent⟩ := Registry.register_ok hreg
      obtain ⟨s, hs⟩ := ih r1
      have hgoal : (Registry.registerMany r1 xs).entries
          = r.entries ++ ([⟨r.next, x.1, x.2.1, x.2.2⟩] ++ s) := by
        rw [hs, hent, List.append_assoc]
      exact ⟨_, hgoal⟩

theorem registerMany_findEntry {β : Type} {r : Registry β} {h : Nat} {e : Entry β}
    (l : List (Kind × Option Nat × β)) (hfind : r.findEntry h = some e) :
    (r.registerMany l).findEntry h = some e := by
  obtain ⟨s, hs⟩ := registerMany_entries l r
  unfold Registry.findEntry at hfind ⊢
  rw [hs]
  exact find?_append_of_some s hfind

/-- C2: resolve against register — a handle returned by `register(k, obj)`
resolves under kind `k`, after any batch of further registrations, to
exactly the backend object stored at registration; a handle never registered
fails with NotFound; a handle registered under a different kind fails with
KindMismatch. -/
theorem claim2_resolve_contract {β : Type} (r : Registry β) (hinv : r.Inv) :
    (∀ k p o h r1, r.register k p o = .ok (h, r1) →
      ∀ l, (r1.registerMany l).resolve h k = .ok o) ∧
    (∀ h k, h ∉ r.handles → r.resolve h k = .error .notFound) ∧
    (∀ h k e, e ∈ r.entries → e.handle = h → e.kind ≠ k →
      r.resolve h k = .error .kindMismatch) := by
  refine ⟨fun k p o h r1 hreg l => ?_, fun h k hnm => ?_, fun h k e hmem hh hk => ?_⟩
  · have hfind := register_resolve hinv hreg
    have := registerMany_findEntry l hfind
    unfold Registry.resolve
    rw [this]
    simp
  · unfold Registry.resolve Registry.findEntry
    rw [List.find?_eq_none.mpr]
    intro e hmem
    simp only [decide_eq_true_eq]
    intro hcontra
    exact hnm (hcontra ▸ List.mem_map_of_mem Entry.handle hmem)
  · have hfind : r.findEntry h = some e := by
      rw [← hh]
      exact findEntry_of_mem_nodup hmem hinv.2
    unfold Registry.resolve
    rw [hfind]
    simp [hk]


/-- Witness for C2 at a concrete registry: registering object 7 as a
presentation in the empty registry and then registering a slide under it
still resolves handle 0 to 7; handle 5 is NotFound; resolving the slide
handle 1 as a presentation is a KindMismatch. -/
theorem claim2_witness :
    (((Registry.registerMany
        { next := 1, entries := [⟨0, .presentation, none, (7 : Nat)⟩] }
        [(.slide, some 0, 9)]).resolve 0 .presentation) = .ok 7) ∧
    (emptyNatRegistry.resolve 5 .presentation = .error .notFound) ∧
    (twoEntryRegistry.resolve 1 .presentation = .error .kindMismatch) := by
  have hinv : emptyNatRegistry.Inv := ⟨by simp [emptyNatRegistry], by
    simp [emptyNatRegistry, Registry.handles]⟩
  have hinv2 : twoEntryRegistry.Inv := by
    constructor
    · intro e hmem
      simp only [twoEntryRegistry, List.mem_cons, List.not_mem_nil, or_false] at hmem
      rcases hmem with h | h <;> rw [h] <;> decide
    · simp [twoEntryRegistry, Registry.handles]
  refine ⟨?_, ?_, ?_⟩
  · exact (claim2_resolve_contract emptyNatRegistry hinv).1 .presentation none 7 0
      { next := 1, entries := [⟨0, .presentation, none, 7⟩] } rfl
      [(.slide, some 0, 9)]
  · exact (claim2_resolve_contract emptyNatRegistry hinv).2.1 5 .presentation (by decide)
  · exact (claim2_resolve_contract twoEntryRegistry hinv2).2.2 1 .presentation
      ⟨1, .slide, some 0, 9⟩ (by decide) rfl (by decide)

/-! ## C3: argument validation fails fast -/

/-- C3: an add_chart or add_shape call whose type name is not in the fixed
enumeration, and an add_table call whose data grid is empty or
non-rectangular, fail with InvalidArgument before any backend call: the
returned state is exactly the state before the call (no mutation of any
presentation, no handle registered). -/
theorem claim3_invalid_argument_fail_fast (st : SState) (pid sid : Nat)
    (cts sts : String) (cats : List String) (series : List (String × List ℚ))
    (data : List (List CellData)) (l t w h lw : ℚ) (wo ho : Option ℚ)
    (cw : Option (List ℚ)) (hdr : Bool) (ctitle : Option String)
    (fill line : Option RGB) :
    (chartTypeOfString cts = none →
      Svc.add_chart st pid sid cts cats series l t w h ctitle
        = (.error .invalidArgument, st)) ∧
    (shapeTypeOfString sts = none →
      Svc.add_shape st pid sid sts l t w h fill line lw
        = (.error .invalidArgument, st)) ∧
    (validTableData data = false →
      Svc.add_table st pid sid data l t wo ho cw hdr
        = (.error .invalidArgument, st)) := by
  refine ⟨fun hc => ?_, fun hs => ?_, fun hd => ?_⟩
  · unfold Svc.add_chart
    rw [hc]
  · unfold Svc.add_shape
    rw [hs]
  · unfold Svc.add_table
    rw [hd]
    simp

/-- Witness for C3: on the initial state, the unknown chart type
"NOT_A_TYPE", the unknown shape type "NOT_A_SHAPE" and the empty data grid
are each rejected with InvalidArgument and the state is untouched. -/
theorem claim3_witness :
    (Svc.add_chart (initState []) 0 1 "NOT_A_TYPE" [] [] 1 2 8 4 none
      = (.error .invalidArgument, initState [])) ∧
    (Svc.add_shape (initState []) 0 1 "NOT_A_SHAPE" 2 2 2 2 none none 1
      = (.error .invalidArgument, initState [])) ∧
    (Svc.add_table (initState []) 0 1 [] 1 2 none none none true
      = (.error .invalidArgument, initState [])) :=
  ⟨(claim3_invalid_argument_fail_fast (initState []) 0 1 "NOT_A_TYPE" "x" [] [] []
      1 2 8 4 1 none none none true none none none).1 rfl,
   (claim3_invalid_argument_fail_fast (initState []) 0 1 "x" "NOT_A_SHAPE" [] [] []
      2 2 2 2 1 none none none true none none none).2.1 rfl,
   (claim3_invalid_argument_fail_fast (initState []) 0 1 "x" "x" [] [] []
      1 2 0 0 1 none none none true none none none).2.2 rfl⟩

/-! ## C4: add_header_footer touches no slide -/


/-- C4 (code bug): apis.add_header_footer returns every presentation
unchanged — the loop guard `hasattr(slide, 'has_header_footer')` is False
for every python-pptx slide, so the footer (and slide number and date) is
applied to no slide at all, contradicting the function's own documentation
("Adds headers and footers to all slides") and the claim that the bulk
operation covers all slides.  Evaluated here at an arbitrary presentation
and, in particular, at a one-slide presentation with a footer requested. -/
theorem claim4_add_header_footer_noop :
    (∀ (prs : Pres) (ht ft : Option String) (sn dt : Bool),
      add_header_footer prs ht ft sn dt = prs) ∧
    add_header_footer oneSlidePres none (some "Confidential") true true
      = oneSlidePres := by
  have hall : ∀ (prs : Pres) (ht ft : Option String) (sn dt : Bool),
      add_header_footer prs ht ft sn dt = prs := by
    intro prs ht ft sn dt
    unfold add_header_footer
    have : (prs.slides.map fun s =>
        if slideHasHeaderFooterAttr s then s else s) = prs.slides := by
      rw [show (fun s => if slideHasHeaderFooterAttr s then s else s)
            = fun s : Slide => s from funext fun s => by
          unfold slideHasHeaderFooterAttr
          simp]
      exact List.map_id _
    rw [this]
  exact ⟨hall, hall oneSlidePres none (some "Confidential") true true⟩

/-! ## C6: add_image with a missing file -/

theorem list_set_self {α : Type} {l : List α} {i : Nat} {a : α}
    (h : l[i]? = some a) : l.set i a = l := by
  induction l generalizing i with
  | nil => simp at h
  | cons x xs ih =>
    cases i with
    | zero =>
      simp only [List.getElem?_cons_zero, Option.some.injEq] at h
      rw [← h]
      rfl
    | succ n =>
      simp only [List.getElem?_cons_succ] at h
      rw [List.set_cons_succ, ih h]

/-- C6: an add_image call whose image path does not exist fails with
ResourceNotFound and leaves the whole service state — in particular the
target slide's shape list and the registry — unchanged (no shape added, no
shape handle registered).  The hypotheses say the two handles resolve and
the slide exists in the heap. -/
theorem claim6_add_image_missing (st : SState) (pid sid i j : Nat)
    (pref : BackendRef) (prs : Pres) (sl : Slide) (path : String) (l t : ℚ)
    (w h : Option ℚ)
    (hpid : st.registry.resolve pid .presentation = .ok pref)
    (hsid : st.registry.resolve sid .slide = .ok (.slide i j))
    (hheap : st.heap[i]? = some prs)
    (hslide : prs.slides[j]? = some sl)
    (hpath : path ∉ st.fs) :
    Svc.add_image st pid sid path l t w h = (.error .resourceNotFound, st) := by
  unfold Svc.add_image svcShapeOp withSlide
  rw [hpid, hsid]
  dsimp only
  rw [hheap]
  dsimp only
  rw [hslide]
  dsimp only
  unfold Pptx.add_image
  rw [if_neg hpath]
  dsimp only [mapPyErr]
  rw [list_set_self hslide]
  show (Except.error ToolErr.resourceNotFound, { st with heap := st.heap.set i prs }) = _
  rw [list_set_self hheap]


/-- Witness for C6: on a state with one presentation and one slide and an
empty filesystem, add_image of "missing.png" fails with ResourceNotFound and
returns the state unchanged. -/
theorem claim6_witness :
    Svc.add_image witnessState 0 1 "missing.png" 1 2 none none
      = (.error .resourceNotFound, witnessState) :=
  claim6_add_image_missing witnessState 0 1 0 0 (.pres 0) witnessPres witnessSlide
    "missing.png" 1 2 none none rfl rfl rfl rfl (by decide)

/-! ## C8: save path normalisation -/

/-- C8: the path save_presentation writes to always ends with '.pptx'; a
filename already carrying the extension is used unchanged, any other
filename gets '.pptx' appended; and a save produces exactly one output file
path.  At the service level the save appends exactly that one path to the
write log. -/
theorem claim8_save_path (prs : Pres) (f : String) :
    pyEndsWith (savePath f) ".pptx" = true ∧
    (pyEndsWith f ".pptx" = true → savePath f = f) ∧
    (pyEndsWith f ".pptx" = false → savePath f = f ++ ".pptx") ∧
    save_presentation prs f = [savePath f] := by
  refine ⟨?_, fun h => ?_, fun h => ?_, rfl⟩
  · unfold savePath
    by_cases h : pyEndsWith f ".pptx" = true
    · rw [if_pos h]
      exact h
    · rw [if_neg h]
      unfold pyEndsWith
      rw [String.data_append]
      rw [List.isSuffixOf_iff_suffix]
      exact List.suffix_append f.data ".pptx".data
  · unfold savePath
    rw [if_pos h]
  · unfold savePath
    rw [if_neg (by rw [h]; exact Bool.false_ne_true)]

/-- Witness for C8: "report" is saved to "report.pptx" while "deck.pptx" is
used unchanged; both written paths end with '.pptx' and each save yields a
single path. -/
theorem claim8_witness :
    pyEndsWith (savePath "report") ".pptx" = true ∧
    savePath "deck.pptx" = "deck.pptx" ∧
    savePath "report" = "report" ++ ".pptx" ∧
    save_presentation create_presentation "report" = [savePath "report"] :=
  ⟨(claim8_save_path create_presentation "report").1,
   (claim8_save_path create_presentation "deck.pptx").2.1 (by decide),
   (claim8_save_path create_presentation "report").2.2.1 (by decide),
   (claim8_save_path create_presentation "report").2.2.2⟩

/-! ## C10: add_slide ignores an unusable title -/

/-- C10: add_slide never fails on account of its title argument — for every
valid layout index the slide is created, appended and returned whatever the
title is; and when the layout has no title placeholder, or the title is None
or the empty string, the title is silently ignored (the slide's title
placeholder stays unset). -/
theorem claim10_add_slide_title (prs : Pres) (li : Nat) (title : Option String)
    (bg : Option RGB) (hli : li < numLayouts) :
    ∃ sl, add_slide prs li title bg = ({ prs with slides := prs.slides ++ [sl] }, .ok sl) ∧
      ((layoutHasTitle li = false ∨ title = none ∨ title = some "") →
        sl.titleText = none) := by
  unfold add_slide
  rw [if_pos hli]
  refine ⟨_, rfl, fun hcase => ?_⟩
  have hcond : (pyTruthy title && layoutHasTitle li) = false := by
    rcases hcase with h | h | h
    · rw [h, Bool.and_false]
    · rw [h]; rfl
    · rw [h]; rfl
  rw [hcond]
  dsimp only [Bool.false_eq_true, if_false]
  cases bg with
  | none => rfl
  | some c => rfl

/-- Witness for C10: adding a slide with layout 6 (Blank, no title
placeholder) and a non-empty title succeeds, appends the slide and leaves
its title placeholder unset. -/
theorem claim10_witness :
    ∃ sl, add_slide create_presentation 6 (some "Ignored") none
        = ({ create_presentation with slides := create_presentation.slides ++ [sl] },
          .ok sl) ∧
      ((layoutHasTitle 6 = false ∨ some "Ignored" = none ∨ some "Ignored" = some "") →
        sl.titleText = none) :=
  claim10_add_slide_title create_presentation 6 (some "Ignored") none (by decide)

/-! ## C9: add_text / add_paragraph and empty text -/

/-- C9 counterexample: the claim says every non-empty text string makes
add_text return the new text-box shape, but the non-empty string "\na" (a
line feed followed by a letter) makes `text_frame.text = text` put an empty
first paragraph into the frame, so `paragraph.runs[0]` raises IndexError and
the operation fails. -/
theorem claim9_counterexample :
    "\na" ≠ "" ∧
    (add_text witnessSlide "\na" 1 2 8 1 18 "Calibri" (0, 0, 0) false false false
      .left).2 = .error .indexError := by
  exact ⟨by decide, rfl⟩

/-- C9 amended: add_text and add_paragraph fail (with IndexError at the
run-styling step) exactly when the styled paragraph ends up with no runs:
for add_text that is when the first line of `text` (text up to the first
line feed) contains no non-break character — in particular when text is
empty; for add_paragraph when the whole text contains no non-break character
— in particular when text is empty.  In every other case the operation
returns the newly created text-box shape. -/
theorem claim9_amended (sl : Slide) (text : String) (l t w h fsz ls : ℚ)
    (fn : String) (c : RGB) (b it u : Bool) (al : Align) :
    ((add_text sl text l t w h fsz fn c b it u al).2 = .error .indexError
      ↔ ((textToParagraphs text).headD {}).runs = []) ∧
    ((∃ shp, (add_text sl text l t w h fsz fn c b it u al).2 = .ok shp)
      ↔ ¬((textToParagraphs text).headD {}).runs = []) ∧
    ((add_paragraph sl text l t w h fsz fn c al ls).2 = .error .indexError
      ↔ runsOfText text = []) ∧
    ((∃ shp, (add_paragraph sl text l t w h fsz fn c al ls).2 = .ok shp)
      ↔ ¬runsOfText text = []) := by
  constructor
  · unfold add_text
    cases hruns : ((textToParagraphs text).headD {}).runs with
    | nil =>
      rw [List.headD_eq_head?_getD] at hruns
      simp [hruns]
    | cons r0 rs =>
      rw [List.headD_eq_head?_getD] at hruns
      simp [hruns]
  constructor
  · unfold add_text
    cases hruns : ((textToParagraphs text).headD {}).runs with
    | nil =>
      rw [List.headD_eq_head?_getD] at hruns
      simp [hruns]
    | cons r0 rs =>
      rw [List.headD_eq_head?_getD] at hruns
      simp [hruns]
  constructor
  · unfold add_paragraph
    cases hruns : runsOfText text with
    | nil => simp [hruns]
    | cons r0 rs => simp [hruns]
  · unfold add_paragraph
    cases hruns : runsOfText text with
    | nil => simp [hruns]
    | cons r0 rs => simp [hruns]

/-! ## C7: table round-trip -/


theorem populateRowCells_str (ss : List String) : ∀ n, ss.length = n →
    populateRowCells (List.replicate n emptyCellTF) (ss.map CellData.str)
      = (ss.map strCellTF, none) := by
  induction ss with
  | nil =>
    intro n hn
    rw [← hn]
    rfl
  | cons s ss ih =>
    intro n hn
    cases n with
    | zero => exact absurd hn (by simp)
    | succ m =>
      rw [List.replicate_succ]
      show populateRowCells (emptyCellTF :: List.replicate m emptyCellTF)
        (CellData.str s :: ss.map CellData.str) = _
      unfold populateRowCells
      rw [show applyCellData emptyCellTF (CellData.str s) = (strCellTF s, none) from rfl]
      rw [ih m (by simpa using hn)]
      rfl

theorem populateRows_str (grid : List (List String)) (c : Nat)
    (hrect : ∀ row ∈ grid, row.length = c) :
    populateRows (List.replicate grid.length (List.replicate c emptyCellTF))
        (grid.map (List.map CellData.str))
      = (grid.map (List.map strCellTF), none) := by
  induction grid with
  | nil => rfl
  | cons row rows ih =>
    rw [List.length_cons, List.replicate_succ, List.map_cons]
    show populateRows (List.replicate c emptyCellTF
      :: List.replicate rows.length (List.replicate c emptyCellTF)) _ = _
    unfold populateRows
    rw [populateRowCells_str row c (hrect row (by simp))]
    rw [ih fun r hr => hrect r (by simp [hr])]
    rfl

theorem boldFirstRow_length (cells : TableCells) :
    (boldFirstRow cells).length = cells.length := by
  cases cells <;> simp [boldFirstRow]

theorem tfRunsBold_boldTF (tf : TextFrame) : tfRunsBold (boldTF tf) = true := by
  unfold tfRunsBold boldTF
  rw [List.all_eq_true]
  intro p hp
  simp only [List.mem_map] at hp
  obtain ⟨p0, _, hp0⟩ := hp
  rw [← hp0]
  rw [List.all_eq_true]
  intro r hr
  simp only [List.mem_map] at hr
  obtain ⟨r0, _, hr0⟩ := hr
  rw [← hr0]
  simp

theorem firstRowBold_boldFirstRow (row : List TextFrame) (rest : TableCells) :
    firstRowBold ((row.map boldTF) :: rest) = true := by
  unfold firstRowBold
  rw [List.headD_cons, List.all_eq_true]
  intro tf htf
  simp only [List.mem_map] at htf
  obtain ⟨tf0, _, htf0⟩ := htf
  rw [← htf0]
  exact tfRunsBold_boldTF tf0

theorem strCellTF_bold_none {s : String} {p : Paragraph} {r : TextRun}
    (hp : p ∈ (strCellTF s).paragraphs) (hr : r ∈ p.runs) : r.font.bold = none := by
  unfold strCellTF textToParagraphs at hp
  simp only [List.mem_map] at hp
  obtain ⟨line, _, hline⟩ := hp
  rw [← hline] at hr
  simp only [runsFromChars, List.mem_map] at hr
  obtain ⟨f, _, hf⟩ := hr
  rw [← hf]

theorem firstRowBold_false_of_run {row : List TextFrame} {rest : TableCells}
    (hrun : rowHasRun row = true)
    (hnone : ∀ tf ∈ row, ∀ p ∈ tf.paragraphs, ∀ r ∈ p.runs, r.font.bold = none) :
    firstRowBold (row :: rest) = false := by
  unfold rowHasRun at hrun
  simp only [List.any_eq_true, Bool.not_eq_true', List.isEmpty_eq_false] at hrun
  obtain ⟨tf, htf, p, hp, hrne⟩ := hrun
  obtain ⟨r, hr⟩ := List.exists_mem_of_ne_nil _ hrne
  have hb := hnone tf htf p hp r hr
  unfold firstRowBold
  rw [List.headD_cons, Bool.eq_false_iff]
  intro hall
  rw [List.all_eq_true] at hall
  have htb := hall tf htf
  unfold tfRunsBold at htb
  rw [List.all_eq_true] at htb
  have hpb := htb p hp
  rw [List.all_eq_true] at hpb
  have hrb := hpb r hr
  simp only [decide_eq_true_eq] at hrb
  rw [hb] at hrb
  exact Option.noConfusion hrb

/-- C7 counterexample: for the 1 by 1 rectangular grid [[""]] the claim's
bold-styling equivalence fails — with `first_row_is_header = false` the
queried-back first row counts as bold-styled (an empty-string cell holds no
text run, so every run of the row is vacuously bold), and indeed the tables
built with the flag false and true are completely identical, so no
queried-back property can distinguish them. -/
theorem claim7_counterexample :
    (tableCellsOf (add_table witnessSlide [[CellData.str ""]] 1 2 none none
        none false)).map firstRowBold = some true ∧
    add_table witnessSlide [[CellData.str ""]] 1 2 none none none false
      = add_table witnessSlide [[CellData.str ""]] 1 2 none none none true :=
  ⟨rfl, rfl⟩

/-- C7 amended: a table built from a non-empty rectangular R-by-C grid of
strings queries back with exactly R rows and C columns; with
`first_row_is_header` true every first-row run is bold, with it false no
first-row run carries bold styling; hence the first row is bold-styled iff
`first_row_is_header` was true, provided at least one first-row cell is a
non-empty string (an all-empty first row holds no runs and counts as
bold-styled either way). -/
theorem claim7_amended (sl : Slide) (grid : List (List String)) (l t : ℚ)
    (w h : Option ℚ) (cw : Option (List ℚ)) (hdr : Bool)
    (hne : grid ≠ []) (hc : (grid.headD []).length ≠ 0)
    (hrect : ∀ row ∈ grid, row.length = (grid.headD []).length) :
    ∃ sl1 cells,
      add_table sl (grid.map (List.map CellData.str)) l t w h cw hdr
        = (sl1, .ok (some cells)) ∧
      cells.length = grid.length ∧
      (∀ row ∈ cells, row.length = (grid.headD []).length) ∧
      (hdr = true → firstRowBold cells = true) ∧
      (hdr = false → ∀ tf ∈ cells.headD [], ∀ p ∈ tf.paragraphs, ∀ r ∈ p.runs,
        r.font.bold = none) ∧
      (rowHasRun (cells.headD []) = true → (firstRowBold cells = true ↔ hdr = true)) := by
  obtain ⟨g, gs, rfl⟩ : ∃ g gs, grid = g :: gs := by
    cases grid with
    | nil => exact absurd rfl hne
    | cons g gs => exact ⟨g, gs, rfl⟩
  have hcg : g.length ≠ 0 := by simpa using hc
  have hrect' : ∀ row ∈ g :: gs, row.length = g.length := by
    intro row hrow
    simpa using hrect row hrow
  unfold add_table
  rw [if_neg (by
    simp only [List.length_map, List.length_cons, List.map_cons, List.headD_cons]
    push_neg
    exact ⟨Nat.succ_ne_zero _, by simpa using hcg⟩)]
  rw [show (List.map (List.map CellData.str) (g :: gs)).length = (g :: gs).length from
    List.length_map _ _]
  rw [show ((List.map (List.map CellData.str) (g :: gs)).headD []).length = g.length from
    by simp]
  dsimp only
  rw [populateRows_str (g :: gs) g.length hrect']
  dsimp only
  cases hdr with
  | false =>
    refine ⟨_, List.map (List.map strCellTF) (g :: gs), rfl, by simp, ?_, ?_, ?_, ?_⟩
    · intro row hrow
      simp only [List.mem_map] at hrow
      obtain ⟨r, hrmem, hrow⟩ := hrow
      rw [← hrow, List.length_map, List.headD_cons]
      exact hrect' r hrmem
    · exact fun hcontra => absurd hcontra (by decide)
    · intro _ tf htf p hp r hr
      rw [List.map_cons, List.headD_cons] at htf
      simp only [List.mem_map] at htf
      obtain ⟨s, hs, htf⟩ := htf
      rw [← htf] at hp
      exact strCellTF_bold_none hp hr
    · intro hrun
      rw [List.map_cons, List.headD_cons] at hrun
      have hnone : ∀ tf ∈ List.map strCellTF g, ∀ p ∈ tf.paragraphs, ∀ r ∈ p.runs,
          r.font.bold = none := by
        intro tf htf p hp r hr
        simp only [List.mem_map] at htf
        obtain ⟨s, hs, htf⟩ := htf
        rw [← htf] at hp
        exact strCellTF_bold_none hp hr
      rw [List.map_cons]
      rw [firstRowBold_false_of_run hrun hnone]
  | true =>
    refine ⟨_, boldFirstRow (List.map (List.map strCellTF) (g :: gs)), rfl, ?_, ?_, ?_, ?_, ?_⟩
    · rw [boldFirstRow_length, List.length_map]
    · intro row hrow
      rw [List.map_cons] at hrow
      unfold boldFirstRow at hrow
      rw [List.headD_cons]
      rcases List.mem_cons.mp hrow with hh | hh
      · rw [hh, List.length_map, List.length_map]
      · simp only [List.mem_map] at hh
        obtain ⟨r, hrmem, hh⟩ := hh
        rw [← hh, List.length_map]
        exact hrect' r (by simp [hrmem])
    · intro _
      rw [List.map_cons]
      unfold boldFirstRow
      exact firstRowBold_boldFirstRow _ _
    · exact fun hcontra => absurd hcontra (by decide)
    · intro _
      rw [List.map_cons]
      unfold boldFirstRow
      refine ⟨fun _ => rfl, fun _ => ?_⟩
      exact firstRowBold_boldFirstRow _ _

/-- Witness for C7 (amended) at the 2 by 1 grid [["a"], ["b"]] with the
header flag set: the built table has 2 rows of 1 column and its first row is
bold-styled. -/
theorem claim7_witness :
    ∃ sl1 cells,
      add_table witnessSlide (([["a"], ["b"]] : List (List String)).map
          (List.map CellData.str)) 1 2 none none none true
        = (sl1, .ok (some cells)) ∧
      cells.length = ([["a"], ["b"]] : List (List String)).length ∧
      (∀ row ∈ cells,
        row.length = (([["a"], ["b"]] : List (List String)).headD []).length) ∧
      (true = true → firstRowBold cells = true) ∧
      (true = false → ∀ tf ∈ cells.headD [], ∀ p ∈ tf.paragraphs, ∀ r ∈ p.runs,
        r.font.bold = none) ∧
      (rowHasRun (cells.headD []) = true → (firstRowBold cells = true ↔ true = true)) :=
  claim7_amended witnessSlide [["a"], ["b"]] 1 2 none none none true (by decide)
    (by decide) (by decide)

/-! ## C5: create_complete_presentation saves iff a filename is supplied -/


theorem ccpBuild_filename_irrel (fs : List String) (title : String)
    (sc : List SlideContent) (opts : Options) (x y : Option String) :
    ccpBuild fs title sc { opts with filename := x }
      = ccpBuild fs title sc { opts with filename := y } :=
  rfl

/-- C5: create_complete_presentation saves a file iff a filename is
supplied.  With the filename option absent no write happens at all; with a
filename f supplied, a successful run writes exactly the one path
`savePath f`; and a run that succeeds with a filename also succeeds — with
the same presentation and no write — when the filename is omitted (the
build steps do not consult the filename). -/
theorem claim5_save_iff_filename (fs : List String) (title : String)
    (sc : List SlideContent) (opts : Options) :
    (opts.filename = none →
      writesOf (create_complete_presentation fs title sc opts) = []) ∧
    (∀ f, opts.filename = some f →
      isOkE (create_complete_presentation fs title sc opts) = true →
      writesOf (create_complete_presentation fs title sc opts) = [savePath f]) ∧
    (∀ f, isOkE (create_complete_presentation fs title sc
        { opts with filename := some f }) = true →
      create_complete_presentation fs title sc { opts with filename := none }
        = (create_complete_presentation fs title sc
            { opts with filename := some f }).map fun pw => (pw.1, [])) := by
  refine ⟨fun hf => ?_, fun f hf hok => ?_, fun f hok => ?_⟩
  · unfold create_complete_presentation
    cases hb : ccpBuild fs title sc opts with
    | error e => rfl
    | ok prs => rw [hf]; rfl
  · unfold create_complete_presentation at hok ⊢
    cases hb : ccpBuild fs title sc opts with
    | error e => rw [hb] at hok; exact absurd hok (by simp [isOkE])
    | ok prs => rw [hf]; rfl
  · unfold create_complete_presentation at hok ⊢
    rw [ccpBuild_filename_irrel fs title sc opts none (some f)]
    cases hb : ccpBuild fs title sc { opts with filename := some f } with
    | error e => rw [hb] at hok; exact absurd hok (by simp [isOkE])
    | ok prs => rfl


/-- Witness for C5: the one-content-slide build with title "T" succeeds;
with filename "o" it writes exactly ["o.pptx"], and with the filename
omitted it returns the same presentation with no write. -/
theorem claim5_witness :
    writesOf (create_complete_presentation [] "T" [witnessContent]
        { filename := some "o" }) = [savePath "o"] ∧
    create_complete_presentation [] "T" [witnessContent] { filename := none }
      = (create_complete_presentation [] "T" [witnessContent]
          { filename := some "o" }).map fun pw => (pw.1, []) :=
  ⟨(claim5_save_iff_filename [] "T" [witnessContent] { filename := some "o" }).2.1
      "o" rfl (by rfl),
   (claim5_save_iff_filename [] "T" [witnessContent] {}).2.2 "o" (by rfl)⟩

end Pptx
